import Mathlib

/-!
Verification development for the coralreef web application, centred on
`src/services/geminiService.ts` and the two upload components.

The TypeScript source is shallowly embedded below.  JavaScript 32-bit
integer operations (`|0`, `Math.imul`, `^`, `|`, `>>>`, `<<`) are modelled
over `Nat` in unsigned representation modulo `2^32`; all of them agree with
the signed JS semantics modulo `2^32`, and the shifts and bitwise operators
act on the raw 32-bit pattern, which the unsigned representative captures
exactly.  JavaScript numbers appearing in results are modelled as `ℚ`;
every arithmetic step performed by the source on such numbers (division of
an integer by a power of two, integer sums and products below `2^53`,
`Math.floor` of those) is exact in binary floating point, so the `ℚ`
semantics coincides with the double semantics on these programs.
-/

/-- The modulus of JavaScript 32-bit integer coercion, 2^32. -/
def U32 : Nat := 4294967296

/-- JS `Math.imul`: 32-bit integer multiplication (unsigned representative). -/
def imul (a b : Nat) : Nat := a * b % U32

/-- One step of the string/byte mixing loop used by both `generateFileHash`
(`hash = ((hash << 5) - hash + byte) | 0`) and the seed loop of
`seededRandom` (`h = Math.imul(31, h) + code | 0`): both are congruent to
`31*h + c` modulo `2^32`. -/
def step31 (h c : Nat) : Nat := (31 * h + c) % U32

/-- UTF-16 code units of a character, as `String.prototype.charCodeAt`
enumerates them. -/
def utf16Units (c : Char) : List Nat :=
  if c.toNat < 65536 then [c.toNat]
  else [55296 + (c.toNat - 65536) / 1024, 56320 + (c.toNat - 65536) % 1024]

/-- The sequence of UTF-16 code units of a string (`charCodeAt 0 .. length-1`). -/
def strCodes (s : String) : List Nat := (s.data.map utf16Units).flatten

/-- The seed loop of `seededRandom`:
`for i: h = Math.imul(31, h) + seed.charCodeAt(i) | 0`. -/
def seedInit (codes : List Nat) : Nat := codes.foldl step31 0

/-- The state update of the closure returned by `seededRandom`:
`h = Math.imul(h ^ (h >>> 15), h | 1); h ^= h + Math.imul(h ^ (h >>> 7), h | 61)`. -/
def rngStep (h : Nat) : Nat :=
  let h1 := imul (h ^^^ (h >>> 15)) (h ||| 1)
  h1 ^^^ ((h1 + imul (h1 ^^^ (h1 >>> 7)) (h1 ||| 61)) % U32)

/-- The 32-bit numerator of the value returned by the `seededRandom` closure:
`(h ^ (h >>> 14)) >>> 0`; the returned double is this over `4294967296`. -/
def rngOut (h : Nat) : Nat := h ^^^ (h >>> 14)

/-- One call of the closure returned by `seededRandom`: updates the captured
state and returns the 32-bit numerator of the produced value. -/
def nextRand (h : Nat) : Nat × Nat := (rngOut (rngStep h), rngStep h)

/-- State of the generator after `n` calls, starting from seed string `s`. -/
def randState (s : String) : Nat → Nat
  | 0 => seedInit (strCodes s)
  | n + 1 => rngStep (randState s n)

/-- Numerator of the `n`-th value produced by a generator seeded with `s`. -/
def randNum (s : String) (n : Nat) : Nat := rngOut (randState s (n + 1))

/-- The `n`-th value produced by a generator seeded with `s`, as a rational. -/
def randVal (s : String) (n : Nat) : ℚ := (randNum s n : ℚ) / 4294967296

/-- JS `Math.floor(random() * k)` where the random value has numerator `n`:
exact because `n*k < 2^53`. -/
def floorMul (n k : Nat) : Nat := n * k / U32

/-- A `File` as the service observes it: name, byte size, MIME type and
content bytes. -/
structure JFile where
  name : String
  size : Nat
  type : String
  bytes : List Nat
deriving DecidableEq, Repr

/-- Unsigned representative of the 32-bit hash accumulated by
`generateFileHash` over the first 64 KB of the file. -/
def fileHashAcc (f : JFile) : Nat := (f.bytes.take 65536).foldl step31 0

/-- ToInt32 view of an unsigned 32-bit value, as JS renders it in a template
literal. -/
def toSigned (n : Nat) : Int := if n < 2147483648 then (n : Int) else (n : Int) - (U32 : Int)

/-- Embeds `generateFileHash`: returns the string `name-size-hash`. -/
def generateFileHash (f : JFile) : String :=
  f.name ++ "-" ++ toString f.size ++ "-" ++ toString (toSigned (fileHashAcc f))

/-- A JavaScript number as these programs produce them: an exact rational
(every double the source computes here is one) or NaN, which arises when a
wrong-typed JSON field flows through `Math.max` and `Math.min`. -/
inductive JNum where
  | num (q : ℚ)
  | nan
deriving DecidableEq, Repr

/-- A parsed JSON value in a scalar field position (the output of
`JSON.parse` never contains NaN).  Object and array values in these
positions, which would change the shape of the result record itself, are
outside the model; the claims state nothing about them. -/
inductive JVal where
  | jnum (q : ℚ)
  | jstr (s : String)
  | jbool (b : Bool)
  | jnull
deriving DecidableEq, Repr

/-- One entry of the `species` list of an analysis result.  The count has
passed through `Math.max`, so it is a number (possibly NaN). -/
structure SpeciesCount where
  name : String
  count : JNum
  category : String
deriving DecidableEq, Repr

/-- The `AnalysisResult` record produced by the service.  The two scores
pass through `Math.min`/`Math.max` and are numbers (possibly NaN);
`totalFishCount` and `confidence` are stored raw off the `||` default, so
on the Gemini path they hold whatever JSON value the response carried. -/
structure AnalysisResult where
  healthScore : JNum
  biodiversityScore : JNum
  trend : String
  summary : String
  species : List SpeciesCount
  timestamp : String
  totalFishCount : JVal
  confidence : JVal
  analyzedFrame : Option String
deriving DecidableEq, Repr

/-! ## Demo mode (`analyzeReefMediaDemo`) -/

/-- The fixed fish species pool of the demo generator. -/
def fishSpecies : List String :=
  ["Clownfish", "Blue Tang", "Parrotfish", "Butterflyfish", "Angelfish",
   "Moorish Idol", "Triggerfish", "Grouper", "Wrasse", "Damselfish",
   "Surgeonfish", "Lionfish", "Pufferfish", "Goby", "Blenny"]

/-- The fixed coral pool of the demo generator. -/
def coralTypes : List String :=
  ["Staghorn Coral", "Brain Coral", "Table Coral", "Fire Coral",
   "Soft Coral", "Mushroom Coral", "Elkhorn Coral"]

/-- The fixed invertebrate pool of the demo generator. -/
def invertebrates : List String :=
  ["Sea Anemone", "Sea Urchin", "Starfish", "Sea Cucumber",
   "Giant Clam", "Nudibranch", "Octopus"]

/-- The comparator `() => random() - 0.5` passed to `Array.prototype.sort`:
ignores the compared elements, consumes one random value from the captured
generator state and returns it minus one half. -/
def cmpRand (h : Nat) : ℚ × Nat :=
  (((nextRand h).1 : ℚ) / 4294967296 - 1 / 2, (nextRand h).2)

/-- The `Array.prototype.sort` of the JS engine on a string array with a stateful
comparator, as the demo generator uses it for shuffling.  The concrete
algorithm is engine-defined, so it enters the model as a parameter; any one
engine supplies one fixed such function. -/
def JsSort : Type := List String → (Nat → ℚ × Nat) → Nat → List String × Nat

/-- One of the three `for` loops of `analyzeReefMediaDemo` that push
`num` species entries whose counts are `base + Math.floor(random() * mult)`,
returning the entries, the sum of the generated counts and the final
generator state. -/
def genSpecies (names : List String) (num base mult : Nat) (cat : String) (h : Nat) :
    List SpeciesCount × Nat × Nat :=
  (List.range num).foldl
    (fun acc i =>
      (acc.1 ++ [⟨names.getD i "undefined",
                  JNum.num ((base + floorMul (nextRand acc.2.2).1 mult : Nat) : ℚ), cat⟩],
       acc.2.1 + (base + floorMul (nextRand acc.2.2).1 mult),
       (nextRand acc.2.2).2))
    ([], 0, h)

/-- The timestamp-independent content computed by `analyzeReefMediaDemo`. -/
structure DemoCore where
  species : List SpeciesCount
  totalFishCount : Nat
  numFish : Nat
  healthScore : Nat
  biodiversityScore : Nat
  trend : String
  summary : String
deriving DecidableEq, Repr

/-- The body of `analyzeReefMediaDemo` after the three shuffles, given the
shuffled pools and the generator state the shuffles left behind. -/
def demoAfterShuffle (sf sc si : List String) (h3 : Nat) : DemoCore :=
  let p1 := nextRand h3
  let numFish := 4 + floorMul p1.1 3
  let g1 := genSpecies sf numFish 3 12 "fish" p1.2
  let totalFishCount := g1.2.1
  let p2 := nextRand g1.2.2
  let numCoral := 2 + floorMul p2.1 2
  let g2 := genSpecies sc numCoral 5 15 "coral" p2.2
  let p3 := nextRand g2.2.2
  let numInvert := 1 + floorMul p3.1 2
  let g3 := genSpecies si numInvert 2 8 "invertebrate" p3.2
  let species := g1.1 ++ g2.1 ++ g3.1
  let p4 := nextRand g3.2.2
  let healthScore := min 95 (max 35 (40 + totalFishCount * 2 + floorMul p4.1 10))
  let p5 := nextRand p4.2
  let biodiversityScore := min 95 (40 + species.length * 6 + floorMul p5.1 10)
  let trend :=
    if totalFishCount > 40 then "improving"
    else if totalFishCount > 20 then "stable" else "declining"
  let p6 := nextRand p5.2
  let s1 := "Detected " ++ toString totalFishCount ++ " fish across " ++
    toString numFish ++ " species. " ++
    (if healthScore > 70 then "Reef appears healthy with good coral coverage."
     else "Moderate ecosystem activity observed.")
  let s2 := "Analysis found " ++ toString species.length ++
    " distinct species with " ++ toString totalFishCount ++ " total fish. " ++
    (if trend = "improving" then "Positive signs of ecosystem recovery."
     else "Continued monitoring recommended.")
  ⟨species, totalFishCount, numFish, healthScore, biodiversityScore, trend,
   if floorMul p6.1 2 = 0 then s1 else s2⟩

/-- The timestamp-independent part of `analyzeReefMediaDemo`: seeds the
generator from `fileHash` (or `` `${file.name}-${file.size}` `` when absent),
shuffles the three pools with the seeded comparator, then generates species,
scores, trend and summary. -/
def demoCore (sortImpl : JsSort) (file : JFile) (fileHash : Option String) : DemoCore :=
  let seed := fileHash.getD (file.name ++ "-" ++ toString file.size)
  let h0 := seedInit (strCodes seed)
  let r1 := sortImpl fishSpecies cmpRand h0
  let r2 := sortImpl coralTypes cmpRand r1.2
  let r3 := sortImpl invertebrates cmpRand r2.2
  demoAfterShuffle r1.1 r2.1 r3.1 r3.2

/-- Embeds `analyzeReefMediaDemo`.  The `timestamp` argument models
`new Date().toISOString()` at return time; the 2-second `setTimeout` has no
effect on the value. -/
def analyzeReefMediaDemo (sortImpl : JsSort) (file : JFile) (fileHash : Option String)
    (timestamp : String) : AnalysisResult :=
  let c := demoCore sortImpl file fileHash
  { healthScore := JNum.num (c.healthScore : ℚ)
    biodiversityScore := JNum.num (c.biodiversityScore : ℚ)
    trend := c.trend
    summary := c.summary
    species := c.species
    timestamp := timestamp
    totalFishCount := JVal.jnum (c.totalFishCount : ℚ)
    confidence := JVal.jnum 70
    analyzedFrame := none }

/-! ## Frame selection (`countFishInFrame`, `findBestFrame`) -/

/-- The JavaScript whitespace class used by `String.prototype.trim`. -/
def jsWhitespace (c : Char) : Bool :=
  c == ' ' || c == '\t' || c == '\n' || c == '\r' ||
  c.toNat == 11 || c.toNat == 12 || c.toNat == 160 || c.toNat == 65279

/-- JS `String.prototype.trim`: strip whitespace from both ends. -/
def jsTrim (s : String) : String :=
  String.mk (((s.data.dropWhile jsWhitespace).reverse.dropWhile jsWhitespace).reverse)

/-- Outcome of an asynchronous operation: a value, or a rejection. -/
inductive NetResult (α : Type) where
  | ok (val : α)
  | err
deriving DecidableEq, Repr

/-- The longest decimal-digit run at the head of a character list, or `none`
when it is empty: the digit part of `parseInt(s, 10)`. -/
def leadDigits (l : List Char) : Option Nat :=
  let ds := l.takeWhile (fun c => c.isDigit)
  if ds.isEmpty then none
  else some (ds.foldl (fun a c => a * 10 + (c.toNat - 48)) 0)

/-- JS `parseInt(s, 10)` on a trimmed string: an optional sign followed by
at least one digit; trailing non-digits are ignored; `none` models `NaN`. -/
def jsParseInt (s : String) : Option Int :=
  match s.data with
  | '-' :: rest => (leadDigits rest).map (fun n => -(n : Int))
  | '+' :: rest => (leadDigits rest).map (fun n => (n : Int))
  | l => (leadDigits l).map (fun n => (n : Int))

/-- Embeds `countFishInFrame` applied to the oracle response for a frame: any
rejection yields 0, a response whose trimmed text does not parse as an
integer yields 0, otherwise the parsed integer. -/
def countFishInFrame (resp : NetResult String) : Int :=
  match resp with
  | .err => 0
  | .ok text =>
    match jsParseInt (jsTrim text) with
    | none => 0
    | some n => n

/-- The selection loop of `findBestFrame` over `(frame, count)` pairs with
accumulator `(bestFrame, maxFish)`: updates only on a strict improvement. -/
def bestLoop : List (String × Int) → String → Int → String × Int
  | [], bf, mf => (bf, mf)
  | p :: rest, bf, mf => if p.2 > mf then bestLoop rest p.1 p.2 else bestLoop rest bf mf

/-- Embeds `findBestFrame`: counts fish in every frame (via the per-frame response
oracle `respOf`), then scans with `bestFrame = frames[0]`, `maxFish = 0`. -/
def findBestFrame (respOf : String → NetResult String) (frames : List String) :
    String × Int :=
  let counts := frames.map (fun f => countFishInFrame (respOf f))
  bestLoop (frames.zip counts) (frames.headD "undefined") 0

/-! ## Video frame extraction (`extractVideoFrames`)

The browser media element is modelled by its event protocol on the success
path: metadata loads with some duration, every assignment to `currentTime`
fires one `seeked` event, and `capture` abstracts drawing the video into the
canvas and encoding the frame at the seeked position.  `hasCtx` records
whether the canvas 2d context was obtained (the `if (ctx)` guard).
-/

/-- The capture loop: with `rem` frames still to take and `currentFrame = k`,
seek to `interval * (currentFrame + 1)`, capture on `seeked`, repeat.
Returns the captured frames and the sequence of seek positions. -/
def extractGo (hasCtx : Bool) (capture : ℚ → String) (interval : ℚ) :
    Nat → Nat → List String × List ℚ
  | 0, _ => ([], [])
  | rem + 1, k =>
    let t := interval * ((k : ℚ) + 1)
    let rest := extractGo hasCtx capture interval rem (k + 1)
    ((if hasCtx then [capture t] else []) ++ rest.1, t :: rest.2)

/-- Embeds `extractVideoFrames` on the success path: `interval = duration / (numFrames + 1)`,
then the capture loop from `currentFrame = 0`. -/
def extractVideoFrames (hasCtx : Bool) (capture : ℚ → String) (duration : ℚ)
    (numFrames : Nat) : List String × List ℚ :=
  extractGo hasCtx capture (duration / ((numFrames : ℚ) + 1)) numFrames 0

/-! ## Roboflow analysis (`analyzeWithRoboflow`) -/

/-- Does `needle` occur at the head of `hay`? -/
def chStarts : List Char → List Char → Bool
  | [], _ => true
  | _ :: _, [] => false
  | a :: as, b :: bs => a == b && chStarts as bs

/-- Does `needle` occur anywhere in `hay`?  (`String.prototype.includes`.) -/
def chHas : List Char → List Char → Bool
  | _, [] => true
  | [], _ :: _ => false
  | a :: as, n => chStarts n (a :: as) || chHas as n

/-- JS `hay.includes(needle)` on strings. -/
def jsIncludes (hay needle : String) : Bool := chHas hay.data needle.data

/-- JS `toLowerCase` (ASCII, which covers every class name compared here). -/
def strLower (s : String) : String := String.mk (s.data.map Char.toLower)

/-- Embeds `classifySpecies`: substring tests on the lower-cased class name. -/
def classifySpecies (className : String) : String :=
  let ln := strLower className
  if jsIncludes ln "coral" || jsIncludes ln "anemone" then "coral"
  else if jsIncludes ln "urchin" || jsIncludes ln "starfish" ||
    jsIncludes ln "crab" || jsIncludes ln "shrimp" ||
    jsIncludes ln "jellyfish" || jsIncludes ln "octopus" then "invertebrate"
  else "fish"

/-- JS `word.charAt(0).toUpperCase() + word.slice(1).toLowerCase()`. -/
def capToken : List Char → List Char
  | [] => []
  | c :: rest => Char.toUpper c :: rest.map Char.toLower

/-- Embeds `formatSpeciesName`: split on `-` or `_`, capitalise each word, join
with spaces. -/
def formatSpeciesName (name : String) : String :=
  String.intercalate " "
    ((name.split (fun c => c == '-' || c == '_')).map (fun w => String.mk (capToken w.data)))

/-- One entry of `data.predictions` in the Roboflow response; absent fields
are `none` (the source applies the `Unknown` and `0` defaults). -/
structure RoboPred where
  className : Option String
  confidence : Option ℚ
deriving DecidableEq, Repr

/-- JavaScript `x || d` on a number field: `d` when the field is absent,
`null` or `0`. -/
def orQ (x : Option ℚ) (d : ℚ) : ℚ :=
  match x with
  | none => d
  | some v => if v = 0 then d else v

/-- JavaScript `x || d` on a string field: `d` when the field is absent,
`null` or the empty string. -/
def orStr (x : Option String) (d : String) : String :=
  match x with
  | none => d
  | some v => if v = "" then d else v

/-- The tally loop of `analyzeWithRoboflow` over the predictions: an
insertion-ordered association list `name ↦ (count, category)` plus the
running fish total.  Detections below confidence `0.3` are skipped. -/
def roboTally (preds : List RoboPred) : List (String × Nat × String) × Nat :=
  preds.foldl
    (fun acc p =>
      let cname := orStr p.className "Unknown"
      let conf := orQ p.confidence 0
      if conf < 3 / 10 then acc
      else
        let cat := classifySpecies cname
        let m0 := if acc.1.any (fun e => e.1 == cname) then acc.1
                  else acc.1 ++ [(cname, 0, cat)]
        (m0.map (fun e => if e.1 == cname then (e.1, e.2.1 + 1, e.2.2) else e),
         acc.2 + (if cat == "fish" then 1 else 0)))
    ([], 0)

/-- Embeds `analyzeWithRoboflow` on a response that arrived with `predictions`
list `preds` (a non-2xx status or network failure is a rejection handled by
the caller). -/
def analyzeWithRoboflow (preds : List RoboPred) (timestamp : String) : AnalysisResult :=
  let tally := roboTally preds
  let speciesL := tally.1.map
    (fun e => (⟨formatSpeciesName e.1, JNum.num (e.2.1 : ℚ), e.2.2⟩ : SpeciesCount))
  let numSpecies := speciesL.length
  let diversityScore := min 100 (numSpecies * 12 + 30)
  let totalFish := tally.2
  let healthScore := min 100
    ((if totalFish ≥ 20 then 80 else if totalFish ≥ 10 then 60
      else if totalFish ≥ 5 then 40 else 20) + numSpecies * 3)
  let trend := if totalFish ≥ 15 then "stable"
    else if totalFish ≥ 8 then "stable" else "declining"
  { healthScore := JNum.num (healthScore : ℚ)
    biodiversityScore := JNum.num (diversityScore : ℚ)
    trend := trend
    summary := "Computer vision detected " ++ toString totalFish ++
      " fish across " ++ toString numSpecies ++ " species. " ++
      (if totalFish ≥ 20 then "Healthy fish population with good diversity."
       else if totalFish ≥ 10 then "Moderate fish activity observed."
       else "Low fish count detected - ecosystem may need attention.")
    species := speciesL
    timestamp := timestamp
    totalFishCount := JVal.jnum (totalFish : ℚ)
    confidence := JVal.jnum 90
    analyzedFrame := none }

/-! ## The main analysis pipeline (`analyzeReefMedia`) -/

/-- Media kind passed by the upload components. -/
inductive MediaType where
  | image
  | video
deriving DecidableEq, Repr

/-- Embeds `getGeminiClient`: `true` iff `VITE_GEMINI_API_KEY` is set and is neither
the placeholder nor blank ("a client is obtained"). -/
def getGeminiClient (apiKey : Option String) : Bool :=
  match apiKey with
  | none => false
  | some k => !(k == "" || k == "your_gemini_api_key_here" || jsTrim k == "")

/-- Embeds `getRoboflowApiKey` with the analogous placeholder/blank check. -/
def getRoboflowApiKey (apiKey : Option String) : Option String :=
  match apiKey with
  | none => none
  | some k =>
    if k == "" || k == "your_roboflow_api_key_here" || jsTrim k == "" then none
    else some k

/-- JavaScript falsiness of a parsed JSON value, as `x || d` tests it:
`0`, the empty string, `false` and `null` are falsy. -/
def jFalsy : JVal → Bool
  | .jnum q => q == 0
  | .jstr s => s == ""
  | .jbool b => !b
  | .jnull => true

/-- JavaScript `x || d` on a possibly absent JSON field: the default when
the field is absent (`undefined`) or falsy, otherwise the raw value —
no numeric coercion happens here. -/
def jvalOr (x : Option JVal) (d : JVal) : JVal :=
  match x with
  | none => d
  | some v => if jFalsy v then d else v

/-- Longest decimal-digit run at the head of a character list, and the
rest. -/
def takeDigits (l : List Char) : List Char × List Char :=
  (l.takeWhile (fun c => c.isDigit), l.dropWhile (fun c => c.isDigit))

/-- Value of a run of decimal digits. -/
def digitsToNat (ds : List Char) : Nat :=
  ds.foldl (fun a c => a * 10 + (c.toNat - 48)) 0

/-- The decimal denoted by integer part `ip` and fraction part `fp`; NaN
when both are empty (as for the lone strings "." , "-" or "+"). -/
def decOfParts (ip fp : List Char) : JNum :=
  if ip.isEmpty && fp.isEmpty then .nan
  else .num ((digitsToNat ip : ℚ) + (digitsToNat fp : ℚ) / (10 : ℚ) ^ fp.length)

/-- Negation of a JS number. -/
def jNeg : JNum → JNum
  | .num q => .num (-q)
  | .nan => .nan

/-- An unsigned decimal, optionally with a fraction part, consuming the
whole input; anything else is NaN. -/
def decOfChars (l : List Char) : JNum :=
  match takeDigits l with
  | (ip, []) => decOfParts ip []
  | (ip, '.' :: r2) =>
    match takeDigits r2 with
    | (fp, []) => decOfParts ip fp
    | _ => .nan
  | _ => .nan

/-- JS ToNumber on a string, for the forms these claims touch: trimmed; the
empty string is 0; an optional sign followed by a plain decimal (optionally
with a fraction part) denotes that decimal; every other form — in
particular a word such as "high" — is NaN.  (Exponent, hexadecimal and
Infinity forms are not modelled; no statement below evaluates them.) -/
def strToNumber (s : String) : JNum :=
  match (jsTrim s).data with
  | [] => .num 0
  | '-' :: r => jNeg (decOfChars r)
  | '+' :: r => decOfChars r
  | l => decOfChars l

/-- JS ToNumber of a parsed JSON value, as `Math.max`/`Math.min` apply it
to their arguments. -/
def toNumber : JVal → JNum
  | .jnum q => .num q
  | .jstr s => strToNumber s
  | .jbool b => .num (if b then 1 else 0)
  | .jnull => .num 0

/-- `Math.max` on two JS numbers: NaN if either argument is NaN. -/
def jMax (a b : JNum) : JNum :=
  match a, b with
  | .num x, .num y => .num (max x y)
  | _, _ => .nan

/-- `Math.min` on two JS numbers: NaN if either argument is NaN. -/
def jMin (a b : JNum) : JNum :=
  match a, b with
  | .num x, .num y => .num (min x y)
  | _, _ => .nan

/-- The fields of the JSON object the Gemini prompt asks for, as read by the
result construction; absent fields are `none`, and a present field carries
its raw JSON value, which need not have the prompted type. -/
structure ParsedSpecies where
  name : String
  count : Option JVal
  category : Option String
deriving DecidableEq, Repr

/-- The parsed `analysisData` object.  Scalar fields whose wrong-typed use
the claims quantify over (the numeric ones) are raw `JVal`s; `trend` and
`summary` are modelled at their prompted string type — a wrong-typed value
there is copied verbatim into the result just like a string is, and no
claim below depends on it. -/
structure ParsedData where
  healthScore : Option JVal
  biodiversityScore : Option JVal
  trend : Option String
  summary : Option String
  totalFishCount : Option JVal
  confidence : Option JVal
  species : Option (List ParsedSpecies)
deriving DecidableEq, Repr

/-- Index of the last occurrence of `c` in `l`. -/
def lastIdxOf (l : List Char) (c : Char) : Option Nat :=
  match l.reverse.findIdx? (fun x => x == c) with
  | none => none
  | some j => some (l.length - 1 - j)

/-- The JSON extraction regex match of the source (greedy) runs from the first
opening brace to the last closing brace after it, or fails. -/
def extractJson (text : String) : Option String :=
  let l := text.data
  match l.findIdx? (fun x => x == '\x7b'), lastIdxOf l '\x7d' with
  | some i, some j => if i < j then some (String.mk ((l.drop i).take (j - i + 1))) else none
  | _, _ => none

/-- The `AnalysisResult` built from a parsed Gemini response
(`analysisData`), the preliminary fish count from frame scanning, the
analysed frame and the media type. -/
def buildGeminiResult (pd : ParsedData) (prelim : Int) (frame : String)
    (mediaType : MediaType) (timestamp : String) : AnalysisResult :=
  { healthScore :=
      jMin (.num 100) (jMax (.num 0) (toNumber (jvalOr pd.healthScore (.jnum 65))))
    biodiversityScore :=
      jMin (.num 100) (jMax (.num 0) (toNumber (jvalOr pd.biodiversityScore (.jnum 60))))
    trend := orStr pd.trend "stable"
    summary := orStr pd.summary "Analysis complete."
    species := (pd.species.getD []).map
      (fun s => ⟨s.name, jMax (.num 0) (toNumber (jvalOr s.count (.jnum 1))),
                 orStr s.category "fish"⟩)
    timestamp := timestamp
    totalFishCount := jvalOr pd.totalFishCount (.jnum (prelim : ℚ))
    confidence := jvalOr pd.confidence (.jnum 75)
    analyzedFrame :=
      if mediaType = .video then some ("data:image/jpeg;base64," ++ frame) else none }

/-- An outbound request of the pipeline (for the request trace). -/
inductive ReqEvent where
  | geminiCount
  | roboflowDetect
  | geminiAnalyze
deriving DecidableEq, Repr

/-- The module-level `analysisCache` map, newest entry first. -/
abbrev Cache : Type := List (String × AnalysisResult)

/-- Embeds `analysisCache.get` and `analysisCache.has`. -/
def lookupCache (c : Cache) (k : String) : Option AnalysisResult :=
  (c.find? (fun e => e.1 == k)).map (fun e => e.2)

/-- Embeds `analysisCache.set` (the pipeline only sets keys it found absent). -/
def insertCache (c : Cache) (k : String) (v : AnalysisResult) : Cache := (k, v) :: c

/-- The ambient world of one `analyzeReefMedia` call: configuration, the JS
sort of the engine and `JSON.parse`, the clock, and the outcome of each
asynchronous operation the call may perform. -/
structure Env where
  geminiApiKey : Option String
  roboflowApiKey : Option String
  sortImpl : JsSort
  jsonParse : String → Option ParsedData
  timestamp : String
  frameExtract : NetResult (List String)
  fileB64 : NetResult String
  countOf : String → NetResult String
  geminiResponse : NetResult String
  roboflowResponse : NetResult (List RoboPred)

/-- The frame-selection stage of the `try` block: for a video, extract
frames and scan them (issuing one count request per frame), falling back to
`fileToBase64` of the whole file if extraction rejects; for an image,
`fileToBase64` directly.  A rejection of `fileToBase64` propagates to the
enclosing `catch`.  Returns the frame to analyse, the preliminary fish count
and the requests issued. -/
def frameStage (env : Env) (mediaType : MediaType) :
    Except Unit (String × Int × List ReqEvent) :=
  match mediaType with
  | .video =>
    match env.frameExtract with
    | .ok frames =>
      .ok ((findBestFrame env.countOf frames).1, (findBestFrame env.countOf frames).2,
           frames.map (fun _ => ReqEvent.geminiCount))
    | .err =>
      match env.fileB64 with
      | .ok b => .ok (b, 0, [])
      | .err => .error ()
  | .image =>
    match env.fileB64 with
    | .ok b => .ok (b, 0, [])
    | .err => .error ()

/-- The limit `MAX_IMAGE_SIZE_MB` / `MAX_VIDEO_SIZE_MB` for the media type. -/
def maxSizeQ (mediaType : MediaType) : ℚ := if mediaType = .image then 20 else 50

/-- The body of `analyzeReefMedia` on a cache miss, producing the result and
the request trace.  (In the source every return on this path first stores
the result in `analysisCache` under `fileHash`; that store is factored into
`analyzeReefMedia` below.) -/
def analyzeFreshCore (env : Env) (file : JFile) (mediaType : MediaType)
    (fileHash : String) : AnalysisResult × List ReqEvent :=
  let demoR := analyzeReefMediaDemo env.sortImpl file (some fileHash) env.timestamp
  if getGeminiClient env.geminiApiKey = false then (demoR, [])
  else if (file.size : ℚ) / (1024 * 1024) > maxSizeQ mediaType then (demoR, [])
  else
    match frameStage env mediaType with
    | .error _ => (demoR, [])
    | .ok fpe =>
      let evs1 := fpe.2.2
      match getRoboflowApiKey env.roboflowApiKey, env.roboflowResponse with
      | some _, .ok preds =>
        (analyzeWithRoboflow preds env.timestamp, evs1 ++ [ReqEvent.roboflowDetect])
      | _, _ =>
        let evs2 := evs1 ++
          (if (getRoboflowApiKey env.roboflowApiKey).isSome then [ReqEvent.roboflowDetect] else []) ++
          [ReqEvent.geminiAnalyze]
        match env.geminiResponse with
        | .err => (demoR, evs2)
        | .ok text =>
          match extractJson text with
          | none => (demoR, evs2)
          | some jtext =>
            match env.jsonParse jtext with
            | none => (demoR, evs2)
            | some pd => (buildGeminiResult pd fpe.2.1 fpe.1 mediaType env.timestamp, evs2)

/-- Embeds `analyzeReefMedia`: hash the file, serve a cached result if present,
otherwise run the pipeline and store its result under the hash.  The third
component is the trace of outbound requests. -/
def analyzeReefMedia (env : Env) (file : JFile) (mediaType : MediaType)
    (cache : Cache) : AnalysisResult × Cache × List ReqEvent :=
  let fileHash := generateFileHash file
  match lookupCache cache fileHash with
  | some cached => (cached, cache, [])
  | none =>
    let r := analyzeFreshCore env file mediaType fileHash
    (r.1, insertCache cache fileHash r.1, r.2)

/-- Embeds `analyzeReefVideo(file)`, which is `analyzeReefMedia` with kind video. -/
def analyzeReefVideo (env : Env) (file : JFile) (cache : Cache) :
    AnalysisResult × Cache × List ReqEvent :=
  analyzeReefMedia env file .video cache

/-- A sequence of further `analyzeReefMedia` calls acting on the cache. -/
def runCalls (calls : List (Env × JFile × MediaType)) (c : Cache) : Cache :=
  calls.foldl (fun c t => (analyzeReefMedia t.1 t.2.1 t.2.2 c).2.1) c

/-! ## Upload components (`MediaUpload.handleAnalyze`, `VideoUpload.handleAnalyze`) -/

/-- Which browser storage a write targets. -/
inductive StorageKind where
  | session
  | browserLocal
deriving DecidableEq, Repr

/-- One `setItem` call. -/
structure StorageWrite where
  kind : StorageKind
  key : String
  value : String
deriving DecidableEq, Repr

/-- The success continuation of `MediaUpload.handleAnalyze` after
`analyzeReefMedia` resolves: two `sessionStorage.setItem` calls, then
navigation to `/results`.  `stringify` is the `JSON.stringify` of the engine. -/
def mediaUploadOnSuccess (stringify : AnalysisResult → String)
    (result : AnalysisResult) (fileName : String) : List StorageWrite × String :=
  ([⟨.session, "analysisResult", stringify result⟩,
    ⟨.session, "analysisFilename", fileName⟩], "/results")

/-- The success continuation of `VideoUpload.handleAnalyze` (identical
stores and navigation, after the optional `onAnalysisComplete` callback). -/
def videoUploadOnSuccess (stringify : AnalysisResult → String)
    (result : AnalysisResult) (fileName : String) : List StorageWrite × String :=
  ([⟨.session, "analysisResult", stringify result⟩,
    ⟨.session, "analysisFilename", fileName⟩], "/results")

/-- Embeds `MediaUpload.handleAnalyze` end to end on the success path: analyse,
then store and navigate. -/
def mediaUploadHandleAnalyze (env : Env) (stringify : AnalysisResult → String)
    (file : JFile) (mediaType : MediaType) (cache : Cache) :
    List StorageWrite × String :=
  mediaUploadOnSuccess stringify (analyzeReefMedia env file mediaType cache).1 file.name

/-- Embeds `VideoUpload.handleAnalyze` end to end on the success path (it calls
`analyzeReefVideo`). -/
def videoUploadHandleAnalyze (env : Env) (stringify : AnalysisResult → String)
    (file : JFile) (cache : Cache) : List StorageWrite × String :=
  videoUploadOnSuccess stringify (analyzeReefVideo env file cache).1 file.name

/-! ## Boundedness of the 32-bit generator state -/

theorem u32_pos : 0 < U32 := by norm_num [U32]

theorem step31_lt (h c : Nat) : step31 h c < U32 := Nat.mod_lt _ u32_pos

theorem seedInit_lt (codes : List Nat) : seedInit codes < U32 := by
  unfold seedInit
  induction codes using List.reverseRecOn with
  | nil => exact u32_pos
  | append_singleton l c _ => rw [List.foldl_append]; exact step31_lt _ _

theorem xorLt {a b : Nat} (ha : a < U32) (hb : b < U32) : a ^^^ b < U32 := by
  have : U32 = 2 ^ 32 := by norm_num [U32]
  rw [this] at ha hb ⊢
  exact Nat.bitwise_lt ha hb

theorem shiftRightLe (h n : Nat) : h >>> n ≤ h := by
  rw [Nat.shiftRight_eq_div_pow]; exact Nat.div_le_self _ _

theorem rngStep_lt (h : Nat) : rngStep h < U32 := by
  unfold rngStep imul
  exact xorLt (Nat.mod_lt _ u32_pos) (Nat.mod_lt _ u32_pos)

theorem rngOut_lt {h : Nat} (hh : h < U32) : rngOut h < U32 :=
  xorLt hh (Nat.lt_of_le_of_lt (shiftRightLe h 14) hh)

theorem randState_lt (s : String) (n : Nat) : randState s n < U32 := by
  cases n with
  | zero => exact seedInit_lt _
  | succ n => exact rngStep_lt _

theorem randNum_lt (s : String) (n : Nat) : randNum s n < 4294967296 := by
  have := rngOut_lt (randState_lt s (n + 1))
  rw [U32] at this
  exact this

/-- C10: `seededRandom` is a pure generator over exact 32-bit integer
arithmetic: two generators built from equal seed strings produce identical
value sequences, and every produced value lies in `[0, 1)`. -/
theorem seededRandom_pure_in_unit (s1 s2 : String) (h : s1 = s2) (n : Nat) :
    randVal s1 n = randVal s2 n ∧ 0 ≤ randVal s1 n ∧ randVal s1 n < 1 := by
  subst h
  refine ⟨rfl, ?_, ?_⟩
  · exact div_nonneg (by positivity) (by norm_num)
  · rw [randVal, div_lt_one (by norm_num)]
    exact_mod_cast randNum_lt s1 n

theorem seededRandom_pure_in_unit_witness :
    randVal "reef" 0 = randVal "reef" 0 ∧ 0 ≤ randVal "reef" 0 ∧ randVal "reef" 0 < 1 :=
  seededRandom_pure_in_unit "reef" "reef" rfl 0

/-- C2: the demo-mode simulator is deterministic: for the same file, file
hash and engine sort, two invocations agree on the species list (names,
counts and categories), both scores, the trend and the summary; only the
timestamp reflects the clock. -/
theorem analyzeReefMediaDemo_deterministic (sortImpl : JsSort) (file : JFile)
    (fileHash : Option String) (t1 t2 : String) :
    (analyzeReefMediaDemo sortImpl file fileHash t1).species =
      (analyzeReefMediaDemo sortImpl file fileHash t2).species ∧
    (analyzeReefMediaDemo sortImpl file fileHash t1).healthScore =
      (analyzeReefMediaDemo sortImpl file fileHash t2).healthScore ∧
    (analyzeReefMediaDemo sortImpl file fileHash t1).biodiversityScore =
      (analyzeReefMediaDemo sortImpl file fileHash t2).biodiversityScore ∧
    (analyzeReefMediaDemo sortImpl file fileHash t1).trend =
      (analyzeReefMediaDemo sortImpl file fileHash t2).trend ∧
    (analyzeReefMediaDemo sortImpl file fileHash t1).summary =
      (analyzeReefMediaDemo sortImpl file fileHash t2).summary :=
  ⟨rfl, rfl, rfl, rfl, rfl⟩

/-! ## Cache behaviour of `analyzeReefMedia` -/

theorem lookupCache_insert_self (c : Cache) (k : String) (v : AnalysisResult) :
    lookupCache (insertCache c k v) k = some v := by
  simp [lookupCache, insertCache, List.find?]

theorem lookupCache_insert_other (c : Cache) {k k' : String} (v : AnalysisResult)
    (hne : k' ≠ k) : lookupCache (insertCache c k' v) k = lookupCache c k := by
  simp only [lookupCache, insertCache, List.find?]
  rw [beq_eq_false_iff_ne.mpr hne]

theorem analyzeReefMedia_hit (env : Env) (file : JFile) (mt : MediaType) (cache : Cache)
    {v : AnalysisResult} (h : lookupCache cache (generateFileHash file) = some v) :
    analyzeReefMedia env file mt cache = (v, cache, []) := by
  simp [analyzeReefMedia, h]

theorem analyzeReefMedia_miss (env : Env) (file : JFile) (mt : MediaType) (cache : Cache)
    (h : lookupCache cache (generateFileHash file) = none) :
    analyzeReefMedia env file mt cache =
      ((analyzeFreshCore env file mt (generateFileHash file)).1,
       insertCache cache (generateFileHash file)
         (analyzeFreshCore env file mt (generateFileHash file)).1,
       (analyzeFreshCore env file mt (generateFileHash file)).2) := by
  simp [analyzeReefMedia, h]

/-- After any call, the result is cached under the hash of the file. -/
theorem analyzeReefMedia_caches (env : Env) (file : JFile) (mt : MediaType) (cache : Cache) :
    lookupCache (analyzeReefMedia env file mt cache).2.1 (generateFileHash file) =
      some (analyzeReefMedia env file mt cache).1 := by
  rcases h : lookupCache cache (generateFileHash file) with _ | v
  · rw [analyzeReefMedia_miss env file mt cache h]
    exact lookupCache_insert_self _ _ _
  · rw [analyzeReefMedia_hit env file mt cache h]
    exact h

/-- A call never removes or replaces an existing cache entry. -/
theorem analyzeReefMedia_preserves (env : Env) (file : JFile) (mt : MediaType)
    (cache : Cache) {k : String} {v : AnalysisResult}
    (h : lookupCache cache k = some v) :
    lookupCache (analyzeReefMedia env file mt cache).2.1 k = some v := by
  rcases hm : lookupCache cache (generateFileHash file) with _ | w
  · rw [analyzeReefMedia_miss env file mt cache hm]
    have hne : generateFileHash file ≠ k := by
      intro he; rw [he, h] at hm; exact Option.noConfusion hm
    rw [lookupCache_insert_other _ _ hne]
    exact h
  · rw [analyzeReefMedia_hit env file mt cache hm]
    exact h

theorem runCalls_preserves (calls : List (Env × JFile × MediaType)) (cache : Cache)
    {k : String} {v : AnalysisResult} (h : lookupCache cache k = some v) :
    lookupCache (runCalls calls cache) k = some v := by
  induction calls generalizing cache with
  | nil => exact h
  | cons t rest ih =>
    exact ih _ (analyzeReefMedia_preserves t.1 t.2.1 t.2.2 cache h)

/-- C8: `analyzeReefMedia` is idempotent per file: the first call caches its
result under the key `generateFileHash file` (built from the name of the file,
size and the 32-bit hash of its first 64 KB), and any later call with the
same file — after arbitrary intervening calls — returns exactly the first
result of the first call (timestamp included), issues no request, and leaves the cache
unchanged. -/
theorem analyzeReefMedia_idempotent_per_file (env env' : Env) (file : JFile)
    (mt mt' : MediaType) (cache : Cache) (calls : List (Env × JFile × MediaType)) :
    analyzeReefMedia env' file mt'
        (runCalls calls (analyzeReefMedia env file mt cache).2.1) =
      ((analyzeReefMedia env file mt cache).1,
       runCalls calls (analyzeReefMedia env file mt cache).2.1, []) := by
  exact analyzeReefMedia_hit env' file mt' _
    (runCalls_preserves calls _ (analyzeReefMedia_caches env file mt cache))

/-- C7 (amended): the only state a call to `analyzeReefMedia` leaves behind
is its entry in the module-level `analysisCache`: the cache either is
unchanged (hit) or gains exactly the returned result keyed by the file
hash; the request trace aside, there is no other effect. -/
theorem analyzeReefMedia_cache_effect (env : Env) (file : JFile) (mt : MediaType)
    (cache : Cache) :
    (analyzeReefMedia env file mt cache).2.1 = cache ∨
    (analyzeReefMedia env file mt cache).2.1 =
      insertCache cache (generateFileHash file) (analyzeReefMedia env file mt cache).1 := by
  rcases h : lookupCache cache (generateFileHash file) with _ | v
  · right; rw [analyzeReefMedia_miss env file mt cache h]
  · left; rw [analyzeReefMedia_hit env file mt cache h]

/-! ## Concrete fixtures for witnesses and counterexamples -/

/-- A trivial engine sort for concrete evaluation: keeps the array order and
consumes no randomness. -/
def sortId : JsSort := fun l _ h => (l, h)

/-- Environment with no API key configured. -/
def envNoKey : Env :=
  { geminiApiKey := none, roboflowApiKey := none, sortImpl := sortId,
    jsonParse := fun _ => none, timestamp := "2026-01-01T00:00:00.000Z",
    frameExtract := .err, fileB64 := .err, countOf := fun _ => .err,
    geminiResponse := .err, roboflowResponse := .err }

/-- A small image file. -/
def fileA : JFile := ⟨"reef.jpg", 4, "image/jpeg", [1, 2, 3, 4]⟩

/-- C7 counterexample: a call on an empty cache leaves the cache non-empty,
so an analysis result is retained in a store that outlives the displaying
view, refuting that a call leaves no observable state behind beyond its
return value. -/
theorem analyzeReefMedia_leaves_state_counterexample :
    (analyzeReefMedia envNoKey fileA .image ([] : Cache)).2.1 ≠ ([] : Cache) := by
  rw [analyzeReefMedia_miss envNoKey fileA .image [] rfl]
  simp [insertCache]

/-! ## Branch behaviour of the fresh-analysis pipeline -/

/-- The demo result `analyzeReefMedia` substitutes on its failure paths. -/
def demoOf (env : Env) (file : JFile) : AnalysisResult :=
  analyzeReefMediaDemo env.sortImpl file (some (generateFileHash file)) env.timestamp

theorem freshCore_no_key (env : Env) (file : JFile) (mt : MediaType) (fh : String)
    (h : getGeminiClient env.geminiApiKey = false) :
    analyzeFreshCore env file mt fh =
      (analyzeReefMediaDemo env.sortImpl file (some fh) env.timestamp, []) := by
  simp [analyzeFreshCore, h]

theorem freshCore_oversized (env : Env) (file : JFile) (mt : MediaType) (fh : String)
    (hk : getGeminiClient env.geminiApiKey = true)
    (hs : (file.size : ℚ) / (1024 * 1024) > maxSizeQ mt) :
    analyzeFreshCore env file mt fh =
      (analyzeReefMediaDemo env.sortImpl file (some fh) env.timestamp, []) := by
  simp [analyzeFreshCore, hk, hs]

theorem freshCore_read_err (env : Env) (file : JFile) (mt : MediaType) (fh : String)
    (hk : getGeminiClient env.geminiApiKey = true)
    (hs : ¬ (file.size : ℚ) / (1024 * 1024) > maxSizeQ mt)
    (hf : frameStage env mt = .error ()) :
    analyzeFreshCore env file mt fh =
      (analyzeReefMediaDemo env.sortImpl file (some fh) env.timestamp, []) := by
  simp [analyzeFreshCore, hk, hs, hf]

theorem freshCore_gemini_err (env : Env) (file : JFile) (mt : MediaType) (fh : String)
    (fpe : String × Int × List ReqEvent)
    (hk : getGeminiClient env.geminiApiKey = true)
    (hs : ¬ (file.size : ℚ) / (1024 * 1024) > maxSizeQ mt)
    (hf : frameStage env mt = .ok fpe)
    (hr : getRoboflowApiKey env.roboflowApiKey = none)
    (hg : env.geminiResponse = .err) :
    analyzeFreshCore env file mt fh =
      (analyzeReefMediaDemo env.sortImpl file (some fh) env.timestamp,
       fpe.2.2 ++ [ReqEvent.geminiAnalyze]) := by
  simp [analyzeFreshCore, hk, hs, hf, hr, hg]

theorem freshCore_no_json (env : Env) (file : JFile) (mt : MediaType) (fh : String)
    (fpe : String × Int × List ReqEvent) (text : String)
    (hk : getGeminiClient env.geminiApiKey = true)
    (hs : ¬ (file.size : ℚ) / (1024 * 1024) > maxSizeQ mt)
    (hf : frameStage env mt = .ok fpe)
    (hr : getRoboflowApiKey env.roboflowApiKey = none)
    (hg : env.geminiResponse = .ok text)
    (hj : extractJson text = none) :
    analyzeFreshCore env file mt fh =
      (analyzeReefMediaDemo env.sortImpl file (some fh) env.timestamp,
       fpe.2.2 ++ [ReqEvent.geminiAnalyze]) := by
  simp [analyzeFreshCore, hk, hs, hf, hr, hg, hj]

theorem freshCore_bad_json (env : Env) (file : JFile) (mt : MediaType) (fh : String)
    (fpe : String × Int × List ReqEvent) (text jtext : String)
    (hk : getGeminiClient env.geminiApiKey = true)
    (hs : ¬ (file.size : ℚ) / (1024 * 1024) > maxSizeQ mt)
    (hf : frameStage env mt = .ok fpe)
    (hr : getRoboflowApiKey env.roboflowApiKey = none)
    (hg : env.geminiResponse = .ok text)
    (hj : extractJson text = some jtext)
    (hp : env.jsonParse jtext = none) :
    analyzeFreshCore env file mt fh =
      (analyzeReefMediaDemo env.sortImpl file (some fh) env.timestamp,
       fpe.2.2 ++ [ReqEvent.geminiAnalyze]) := by
  simp [analyzeFreshCore, hk, hs, hf, hr, hg, hj, hp]

theorem freshCore_parsed (env : Env) (file : JFile) (mt : MediaType) (fh : String)
    (fpe : String × Int × List ReqEvent) (text jtext : String) (pd : ParsedData)
    (hk : getGeminiClient env.geminiApiKey = true)
    (hs : ¬ (file.size : ℚ) / (1024 * 1024) > maxSizeQ mt)
    (hf : frameStage env mt = .ok fpe)
    (hr : getRoboflowApiKey env.roboflowApiKey = none)
    (hg : env.geminiResponse = .ok text)
    (hj : extractJson text = some jtext)
    (hp : env.jsonParse jtext = some pd) :
    analyzeFreshCore env file mt fh =
      (buildGeminiResult pd fpe.2.1 fpe.1 mt env.timestamp,
       fpe.2.2 ++ [ReqEvent.geminiAnalyze]) := by
  simp [analyzeFreshCore, hk, hs, hf, hr, hg, hj, hp]

theorem freshCore_robo_ok (env : Env) (file : JFile) (mt : MediaType) (fh : String)
    (fpe : String × Int × List ReqEvent) (rk : String) (preds : List RoboPred)
    (hk : getGeminiClient env.geminiApiKey = true)
    (hs : ¬ (file.size : ℚ) / (1024 * 1024) > maxSizeQ mt)
    (hf : frameStage env mt = .ok fpe)
    (hr : getRoboflowApiKey env.roboflowApiKey = some rk)
    (hrr : env.roboflowResponse = .ok preds) :
    analyzeFreshCore env file mt fh =
      (analyzeWithRoboflow preds env.timestamp,
       fpe.2.2 ++ [ReqEvent.roboflowDetect]) := by
  simp [analyzeFreshCore, hk, hs, hf, hr, hrr]

/-- Every fresh analysis result is a demo result, a Roboflow result, or a
result built from a parsed Gemini response. -/
theorem analyzeFreshCore_shape (env : Env) (file : JFile) (mt : MediaType) (fh : String) :
    (analyzeFreshCore env file mt fh).1 =
        analyzeReefMediaDemo env.sortImpl file (some fh) env.timestamp ∨
    (∃ preds, (analyzeFreshCore env file mt fh).1 =
        analyzeWithRoboflow preds env.timestamp) ∨
    (∃ pd prelim frame, (∃ jt, env.jsonParse jt = some pd) ∧
        (analyzeFreshCore env file mt fh).1 =
        buildGeminiResult pd prelim frame mt env.timestamp) := by
  by_cases hk : getGeminiClient env.geminiApiKey = false
  · rw [freshCore_no_key env file mt fh hk]; exact Or.inl rfl
  have hk1 : getGeminiClient env.geminiApiKey = true := by
    revert hk; cases getGeminiClient env.geminiApiKey <;> simp
  by_cases hs : (file.size : ℚ) / (1024 * 1024) > maxSizeQ mt
  · rw [freshCore_oversized env file mt fh hk1 hs]; exact Or.inl rfl
  rcases hfr : frameStage env mt with u | fpe
  · cases u
    rw [freshCore_read_err env file mt fh hk1 hs hfr]
    exact Or.inl rfl
  rcases hro : getRoboflowApiKey env.roboflowApiKey with _ | rk
  · rcases hg : env.geminiResponse with text | _
    · rcases hj : extractJson text with _ | jt
      · rw [freshCore_no_json env file mt fh fpe text hk1 hs hfr hro hg hj]
        exact Or.inl rfl
      · rcases hp : env.jsonParse jt with _ | pd
        · rw [freshCore_bad_json env file mt fh fpe text jt hk1 hs hfr hro hg hj hp]
          exact Or.inl rfl
        · rw [freshCore_parsed env file mt fh fpe text jt pd hk1 hs hfr hro hg hj hp]
          exact Or.inr (Or.inr ⟨pd, fpe.2.1, fpe.1, ⟨jt, hp⟩, rfl⟩)
    · rw [freshCore_gemini_err env file mt fh fpe hk1 hs hfr hro hg]
      exact Or.inl rfl
  · rcases hrr : env.roboflowResponse with preds | _
    · rw [freshCore_robo_ok env file mt fh fpe rk preds hk1 hs hfr hro hrr]
      exact Or.inr (Or.inl ⟨preds, rfl⟩)
    · rcases hg : env.geminiResponse with text | _
      · rcases hj : extractJson text with _ | jt
        · exact Or.inl (by simp [analyzeFreshCore, hk1, hs, hfr, hro, hrr, hg, hj])
        · rcases hp : env.jsonParse jt with _ | pd
          · exact Or.inl (by simp [analyzeFreshCore, hk1, hs, hfr, hro, hrr, hg, hj, hp])
          · refine Or.inr (Or.inr ⟨pd, fpe.2.1, fpe.1, ⟨jt, hp⟩, ?_⟩)
            simp [analyzeFreshCore, hk1, hs, hfr, hro, hrr, hg, hj, hp]
      · exact Or.inl (by simp [analyzeFreshCore, hk1, hs, hfr, hro, hrr, hg])

/-! ## Result invariants -/

/-- Scores are actual numbers within `[0, 100]` (in particular not NaN)
and every species count is a non-negative number. -/
def ScoreOK (r : AnalysisResult) : Prop :=
  (∃ q, r.healthScore = JNum.num q ∧ 0 ≤ q ∧ q ≤ 100) ∧
  (∃ q, r.biodiversityScore = JNum.num q ∧ 0 ≤ q ∧ q ≤ 100) ∧
  ∀ s ∈ r.species, ∃ q, s.count = JNum.num q ∧ 0 ≤ q

/-- The trend is one of the three enum values. -/
def TrendOK (r : AnalysisResult) : Prop :=
  r.trend = "improving" ∨ r.trend = "stable" ∨ r.trend = "declining"

instance (r : AnalysisResult) : Decidable (TrendOK r) := by
  unfold TrendOK; infer_instance

/-- An invariant preserved by every step of a fold holds of its result. -/
theorem foldlInv {α β : Type} (P : β → Prop) (f : β → α → β) :
    ∀ (l : List α) (b : β), P b → (∀ b a, P b → P (f b a)) → P (l.foldl f b)
  | [], _, hb, _ => hb
  | a :: l, b, hb, hf => foldlInv P f l (f b a) (hf b a hb) hf

theorem genSpecies_count_num (names : List String) (num base mult : Nat)
    (cat : String) (h : Nat) :
    ∀ e ∈ (genSpecies names num base mult cat h).1,
      ∃ q, e.count = JNum.num q ∧ 0 ≤ q := by
  unfold genSpecies
  apply foldlInv (fun acc : List SpeciesCount × Nat × Nat =>
    ∀ e ∈ acc.1, ∃ q, e.count = JNum.num q ∧ 0 ≤ q)
  · intro e he; simp at he
  · intro b a hb e he
    rcases List.mem_append.mp he with h1 | h1
    · exact hb e h1
    · rw [List.mem_singleton] at h1
      subst h1
      exact ⟨_, rfl, Nat.cast_nonneg _⟩

theorem demoCore_health_bounds (s : JsSort) (f : JFile) (fh : Option String) :
    35 ≤ (demoCore s f fh).healthScore ∧ (demoCore s f fh).healthScore ≤ 95 := by
  unfold demoCore demoAfterShuffle
  dsimp only
  exact ⟨le_min (by norm_num) (Nat.le_max_left _ _), Nat.min_le_left _ _⟩

theorem demoCore_bio_le (s : JsSort) (f : JFile) (fh : Option String) :
    (demoCore s f fh).biodiversityScore ≤ 95 := by
  unfold demoCore demoAfterShuffle
  dsimp only
  exact Nat.min_le_left _ _

theorem demoCore_species_num (s : JsSort) (f : JFile) (fh : Option String) :
    ∀ e ∈ (demoCore s f fh).species, ∃ q, e.count = JNum.num q ∧ 0 ≤ q := by
  unfold demoCore demoAfterShuffle
  dsimp only
  intro e he
  rcases List.mem_append.mp he with h1 | h1
  · rcases List.mem_append.mp h1 with h2 | h2
    · exact genSpecies_count_num _ _ _ _ _ _ e h2
    · exact genSpecies_count_num _ _ _ _ _ _ e h2
  · exact genSpecies_count_num _ _ _ _ _ _ e h1

/-- Demo results satisfy the score and count invariants. -/
theorem demo_ScoreOK (s : JsSort) (f : JFile) (fh : Option String) (t : String) :
    ScoreOK (analyzeReefMediaDemo s f fh t) := by
  obtain ⟨_, hh⟩ := demoCore_health_bounds s f fh
  have hb := demoCore_bio_le s f fh
  refine ⟨⟨((demoCore s f fh).healthScore : ℚ), rfl, Nat.cast_nonneg _, ?_⟩,
    ⟨((demoCore s f fh).biodiversityScore : ℚ), rfl, Nat.cast_nonneg _, ?_⟩,
    demoCore_species_num s f fh⟩
  · calc ((demoCore s f fh).healthScore : ℚ) ≤ 95 := by exact_mod_cast hh
    _ ≤ 100 := by norm_num
  · calc ((demoCore s f fh).biodiversityScore : ℚ) ≤ 95 := by exact_mod_cast hb
    _ ≤ 100 := by norm_num

/-- Demo results have an enum trend. -/
theorem demo_TrendOK (s : JsSort) (f : JFile) (fh : Option String) (t : String) :
    TrendOK (analyzeReefMediaDemo s f fh t) := by
  unfold TrendOK analyzeReefMediaDemo demoCore demoAfterShuffle
  dsimp only
  split_ifs <;> simp

/-- Roboflow results satisfy the score and count invariants. -/
theorem robo_ScoreOK (preds : List RoboPred) (t : String) :
    ScoreOK (analyzeWithRoboflow preds t) := by
  unfold ScoreOK analyzeWithRoboflow
  dsimp only
  refine ⟨⟨_, rfl, Nat.cast_nonneg _, by exact_mod_cast Nat.min_le_left _ _⟩,
    ⟨_, rfl, Nat.cast_nonneg _, by exact_mod_cast Nat.min_le_left _ _⟩, ?_⟩
  intro s hs
  rcases List.mem_map.mp hs with ⟨e, _, he⟩
  rw [← he]
  exact ⟨_, rfl, Nat.cast_nonneg _⟩

/-- Roboflow results have an enum trend. -/
theorem robo_TrendOK (preds : List RoboPred) (t : String) :
    TrendOK (analyzeWithRoboflow preds t) := by
  unfold TrendOK analyzeWithRoboflow
  dsimp only
  split_ifs <;> simp

/-- The numeric fields the result construction reads are absent or JSON
numbers, as the prompted schema specifies.  A present field of any other
type is turned into NaN by the `Math.max`/`Math.min` coercions. -/
def NumericFieldsOK (pd : ParsedData) : Prop :=
  (∀ v, pd.healthScore = some v → ∃ q, v = JVal.jnum q) ∧
  (∀ v, pd.biodiversityScore = some v → ∃ q, v = JVal.jnum q) ∧
  (∀ l, pd.species = some l → ∀ s ∈ l, ∀ v, s.count = some v → ∃ q, v = JVal.jnum q)

/-- The `||`-defaulted value of a number-or-absent field is a number. -/
theorem jvalOr_num (o : Option JVal) (d : ℚ)
    (h : ∀ v, o = some v → ∃ q, v = JVal.jnum q) :
    ∃ r, jvalOr o (JVal.jnum d) = JVal.jnum r := by
  rcases o with _ | v
  · exact ⟨d, rfl⟩
  · rcases h v rfl with ⟨q, rfl⟩
    by_cases hq : q = 0
    · refine ⟨d, ?_⟩
      simp [jvalOr, jFalsy, hq]
    · refine ⟨q, ?_⟩
      simp [jvalOr, jFalsy, hq]

/-- The `Math.min(100, Math.max(0, _))` clamp of a number-or-absent field
is a number in `[0, 100]`. -/
theorem clamp_range (o : Option JVal) (d : ℚ)
    (h : ∀ v, o = some v → ∃ q, v = JVal.jnum q) :
    ∃ q, jMin (JNum.num 100) (jMax (JNum.num 0) (toNumber (jvalOr o (JVal.jnum d)))) =
      JNum.num q ∧ 0 ≤ q ∧ q ≤ 100 := by
  rcases jvalOr_num o d h with ⟨r, hr⟩
  rw [hr]
  exact ⟨min 100 (max 0 r), rfl, le_min (by norm_num) (le_max_left 0 r), min_le_left _ _⟩

/-- The `Math.max(0, _)` clamp of a number-or-absent field is a
non-negative number. -/
theorem clamp_nonneg (o : Option JVal) (d : ℚ)
    (h : ∀ v, o = some v → ∃ q, v = JVal.jnum q) :
    ∃ q, jMax (JNum.num 0) (toNumber (jvalOr o (JVal.jnum d))) = JNum.num q ∧ 0 ≤ q := by
  rcases jvalOr_num o d h with ⟨r, hr⟩
  rw [hr]
  exact ⟨max 0 r, rfl, le_max_left 0 r⟩

/-- Results built from a parsed Gemini response whose numeric fields are
JSON numbers (or absent) satisfy the score and count invariants; a present
wrong-typed field instead yields NaN (see the counterexample), and the
trend is copied from the response either way. -/
theorem gemini_ScoreOK (pd : ParsedData) (prelim : Int) (frame : String)
    (mt : MediaType) (t : String) (hpd : NumericFieldsOK pd) :
    ScoreOK (buildGeminiResult pd prelim frame mt t) := by
  obtain ⟨h1, h2, h3⟩ := hpd
  refine ⟨clamp_range pd.healthScore 65 h1, clamp_range pd.biodiversityScore 60 h2, ?_⟩
  intro s hs
  rcases List.mem_map.mp hs with ⟨e, hel, he⟩
  rw [← he]
  rcases hsp : pd.species with _ | l
  · rw [hsp] at hel
    simp at hel
  · rw [hsp] at hel
    simp only [Option.getD_some] at hel
    exact clamp_nonneg e.count 1 (fun v hv => h3 l hsp e hel v hv)



/-- A parsed Gemini response with a wrong-typed `trend`, a wrong-typed
`healthScore` and a wrong-typed species count. -/
def pdBad : ParsedData :=
  { healthScore := some (JVal.jstr "high"), biodiversityScore := none,
    trend := some "zigzag", summary := none, totalFishCount := none,
    confidence := none,
    species := some [⟨"Clownfish", some (JVal.jstr "many"), none⟩] }

/-- Environment with a Gemini key whose analysis response parses to `pdBad`. -/
def envBad : Env :=
  { geminiApiKey := some "k", roboflowApiKey := none, sortImpl := sortId,
    jsonParse := fun _ => some pdBad, timestamp := "2026-01-01T00:00:00.000Z",
    frameExtract := .err, fileB64 := .ok "QUJD", countOf := fun _ => .err,
    geminiResponse := .ok "\x7b \x22trend\x22: \x22zigzag\x22, \x22healthScore\x22: \x22high\x22 \x7d",
    roboflowResponse := .err }

/-- C9 counterexample: on the Gemini path the returned `trend` is copied
from the AI response without validation, and a non-numeric `healthScore` or
species count flows through `Math.max`/`Math.min` into NaN — the result
violates both the trend-enum clause and the score/count clause of the
claim. -/
theorem analyzeReefMedia_gemini_passthrough_counterexample :
    (analyzeReefMedia envBad fileA .image ([] : Cache)).1.trend = "zigzag" ∧
    (analyzeReefMedia envBad fileA .image ([] : Cache)).1.healthScore = JNum.nan ∧
    (∀ s ∈ (analyzeReefMedia envBad fileA .image ([] : Cache)).1.species,
      s.count = JNum.nan) ∧
    ¬ TrendOK (analyzeReefMedia envBad fileA .image ([] : Cache)).1 ∧
    ¬ ScoreOK (analyzeReefMedia envBad fileA .image ([] : Cache)).1 := by
  have hc : analyzeFreshCore envBad fileA .image (generateFileHash fileA) =
      (buildGeminiResult pdBad 0 "QUJD" .image envBad.timestamp,
       ([] : List ReqEvent) ++ [ReqEvent.geminiAnalyze]) :=
    freshCore_parsed envBad fileA .image (generateFileHash fileA)
      ("QUJD", 0, []) "\x7b \x22trend\x22: \x22zigzag\x22, \x22healthScore\x22: \x22high\x22 \x7d"
      "\x7b \x22trend\x22: \x22zigzag\x22, \x22healthScore\x22: \x22high\x22 \x7d" pdBad rfl
      (by norm_num [fileA, maxSizeQ]) rfl rfl rfl rfl rfl
  have hres : (analyzeReefMedia envBad fileA .image ([] : Cache)).1 =
      buildGeminiResult pdBad 0 "QUJD" .image envBad.timestamp := by
    rw [analyzeReefMedia_miss envBad fileA .image [] rfl]
    dsimp only
    rw [hc]
  have ht : (analyzeReefMedia envBad fileA .image ([] : Cache)).1.trend = "zigzag" := by
    rw [hres]; rfl
  have hh : (analyzeReefMedia envBad fileA .image ([] : Cache)).1.healthScore =
      JNum.nan := by
    rw [hres]; rfl
  refine ⟨ht, hh, ?_, ?_, ?_⟩
  · rw [hres]
    decide
  · intro htr
    unfold TrendOK at htr
    rw [ht] at htr
    rcases htr with h | h | h <;> exact absurd h (by decide)
  · intro hsc
    obtain ⟨⟨q, hq, _⟩, _, _⟩ := hsc
    rw [hh] at hq
    exact JNum.noConfusion hq

/-- C9 (amended): every result `analyzeReefMedia` returns has both scores
in `[0, 100]` and only non-negative species counts, provided the cached
entries satisfy the same and the parsed numeric fields of any AI response
are JSON numbers or absent — a wrong-typed numeric field becomes NaN on the
Gemini path (see the counterexample); the trend is one of `improving`,
`stable`, `declining` on the Roboflow and demo paths, while the Gemini path
copies it from the response (defaulting to `stable` only when it is
absent). -/
theorem analyzeReefMedia_result_invariants :
    (∀ env file mt cache, (∀ kv ∈ cache, ScoreOK kv.2) →
        (∀ jt pd, env.jsonParse jt = some pd → NumericFieldsOK pd) →
        ScoreOK (analyzeReefMedia env file mt cache).1) ∧
    (∀ preds t, TrendOK (analyzeWithRoboflow preds t)) ∧
    (∀ s f fh t, TrendOK (analyzeReefMediaDemo s f fh t)) ∧
    (∀ pd prelim frame mt t, pd.trend = none →
        (buildGeminiResult pd prelim frame mt t).trend = "stable") := by
  refine ⟨?_, robo_TrendOK, demo_TrendOK, ?_⟩
  · intro env file mt cache hc hparse
    rcases h : lookupCache cache (generateFileHash file) with _ | v
    · rw [analyzeReefMedia_miss env file mt cache h]
      rcases analyzeFreshCore_shape env file mt (generateFileHash file) with
        hs | ⟨preds, hs⟩ | ⟨pd, prelim, frame, ⟨jt, hjt⟩, hs⟩
      · show ScoreOK (analyzeFreshCore env file mt (generateFileHash file)).1
        rw [hs]; exact demo_ScoreOK _ _ _ _
      · show ScoreOK (analyzeFreshCore env file mt (generateFileHash file)).1
        rw [hs]; exact robo_ScoreOK _ _
      · show ScoreOK (analyzeFreshCore env file mt (generateFileHash file)).1
        rw [hs]; exact gemini_ScoreOK _ _ _ _ _ (hparse jt pd hjt)
    · rw [analyzeReefMedia_hit env file mt cache h]
      show ScoreOK v
      rcases Option.map_eq_some'.mp h with ⟨e, hfind, he⟩
      rw [← he]
      exact hc e (List.mem_of_find?_eq_some hfind)
  · intro pd prelim frame mt t hnone
    show orStr pd.trend "stable" = "stable"
    rw [hnone]
    rfl

theorem analyzeReefMedia_result_invariants_witness :
    ScoreOK (analyzeReefMedia envNoKey fileA .image ([] : Cache)).1 :=
  analyzeReefMedia_result_invariants.1 envNoKey fileA .image []
    (fun kv hkv => absurd hkv (List.not_mem_nil kv))
    (fun _ _ h => Option.noConfusion h)

/-- Frame scanning issues only per-frame count requests. -/
theorem frameStage_trace (env : Env) (mt : MediaType) (fpe : String × Int × List ReqEvent)
    (h : frameStage env mt = .ok fpe) :
    fpe.2.2.count ReqEvent.geminiAnalyze = 0 ∧
    fpe.2.2.count ReqEvent.roboflowDetect = 0 := by
  unfold frameStage at h
  cases mt with
  | video =>
    rcases hfe : env.frameExtract with frames | _
    · rw [hfe] at h
      injection h with h
      rw [← h]
      constructor <;> · simp [List.count_eq_zero, List.mem_map]
    · rw [hfe] at h
      rcases hb : env.fileB64 with b | _
      · rw [hb] at h
        injection h with h
        rw [← h]
        simp
      · rw [hb] at h
        exact absurd h (by simp)
  | image =>
    rcases hb : env.fileB64 with b | _
    · rw [hb] at h
      injection h with h
      rw [← h]
      simp
    · rw [hb] at h
      exact absurd h (by simp)


theorem freshCore_trace_robo_none (env : Env) (file : JFile) (mt : MediaType)
    (fh : String) (fpe : String × Int × List ReqEvent)
    (hk : getGeminiClient env.geminiApiKey = true)
    (hs : ¬ (file.size : ℚ) / (1024 * 1024) > maxSizeQ mt)
    (hf : frameStage env mt = .ok fpe)
    (hr : getRoboflowApiKey env.roboflowApiKey = none) :
    (analyzeFreshCore env file mt fh).2 = fpe.2.2 ++ [ReqEvent.geminiAnalyze] := by
  rcases hg : env.geminiResponse with text | _
  · rcases hj : extractJson text with _ | jt
    · rw [freshCore_no_json env file mt fh fpe text hk hs hf hr hg hj]
    · rcases hp : env.jsonParse jt with _ | pd
      · rw [freshCore_bad_json env file mt fh fpe text jt hk hs hf hr hg hj hp]
      · rw [freshCore_parsed env file mt fh fpe text jt pd hk hs hf hr hg hj hp]
  · rw [freshCore_gemini_err env file mt fh fpe hk hs hf hr hg]

theorem freshCore_trace_robo_err (env : Env) (file : JFile) (mt : MediaType)
    (fh : String) (fpe : String × Int × List ReqEvent) (rk : String)
    (hk : getGeminiClient env.geminiApiKey = true)
    (hs : ¬ (file.size : ℚ) / (1024 * 1024) > maxSizeQ mt)
    (hf : frameStage env mt = .ok fpe)
    (hr : getRoboflowApiKey env.roboflowApiKey = some rk)
    (hrr : env.roboflowResponse = .err) :
    (analyzeFreshCore env file mt fh).2 =
      fpe.2.2 ++ [ReqEvent.roboflowDetect, ReqEvent.geminiAnalyze] := by
  rcases hg : env.geminiResponse with text | _
  · rcases hj : extractJson text with _ | jt
    · simp [analyzeFreshCore, hk, hs, hf, hr, hrr, hg, hj]
    · rcases hp : env.jsonParse jt with _ | pd
      · simp [analyzeFreshCore, hk, hs, hf, hr, hrr, hg, hj, hp]
      · simp [analyzeFreshCore, hk, hs, hf, hr, hrr, hg, hj, hp]
  · simp [analyzeFreshCore, hk, hs, hf, hr, hrr, hg]

/-- The pipeline attempts the main analysis request and the detection
request at most once each. -/
theorem freshCore_no_retry (env : Env) (file : JFile) (mt : MediaType) (fh : String) :
    (analyzeFreshCore env file mt fh).2.count ReqEvent.geminiAnalyze ≤ 1 ∧
    (analyzeFreshCore env file mt fh).2.count ReqEvent.roboflowDetect ≤ 1 := by
  by_cases hk : getGeminiClient env.geminiApiKey = false
  · rw [freshCore_no_key env file mt fh hk]; exact ⟨by simp, by simp⟩
  have hk1 : getGeminiClient env.geminiApiKey = true := by
    revert hk; cases getGeminiClient env.geminiApiKey <;> simp
  by_cases hs : (file.size : ℚ) / (1024 * 1024) > maxSizeQ mt
  · rw [freshCore_oversized env file mt fh hk1 hs]; exact ⟨by simp, by simp⟩
  rcases hfr : frameStage env mt with u | fpe
  · cases u
    rw [freshCore_read_err env file mt fh hk1 hs hfr]
    exact ⟨by simp, by simp⟩
  obtain ⟨hz1, hz2⟩ := frameStage_trace env mt fpe hfr
  rcases hro : getRoboflowApiKey env.roboflowApiKey with _ | rk
  · rw [freshCore_trace_robo_none env file mt fh fpe hk1 hs hfr hro]
    constructor <;> simp [List.count_append, hz1, hz2]
  · rcases hrr : env.roboflowResponse with preds | _
    · rw [freshCore_robo_ok env file mt fh fpe rk preds hk1 hs hfr hro hrr]
      constructor <;> simp [List.count_append, hz1, hz2]
    · rw [freshCore_trace_robo_err env file mt fh fpe rk hk1 hs hfr hro hrr]
      constructor <;> simp [List.count_append, List.count_cons, hz1, hz2]

/-- C1: `analyzeReefMedia` never rejects on the specified failure paths: a
missing or placeholder API key, an oversized file, a file-read or network/API
error during analysis, and an AI response containing no JSON object (or one
that fails to parse) all return the demo result `analyzeReefMediaDemo` for
the same file; the failed request is never retried (each request kind
appears at most once in the trace). -/
theorem analyzeReefMedia_failure_fallback (env : Env) (file : JFile) (mt : MediaType)
    (cache : Cache)
    (hfresh : lookupCache cache (generateFileHash file) = none) :
    (getGeminiClient env.geminiApiKey = false →
        (analyzeReefMedia env file mt cache).1 = demoOf env file ∧
        (analyzeReefMedia env file mt cache).2.2 = []) ∧
    (getGeminiClient env.geminiApiKey = true →
      (file.size : ℚ) / (1024 * 1024) > maxSizeQ mt →
        (analyzeReefMedia env file mt cache).1 = demoOf env file ∧
        (analyzeReefMedia env file mt cache).2.2 = []) ∧
    (getGeminiClient env.geminiApiKey = true →
      ¬ (file.size : ℚ) / (1024 * 1024) > maxSizeQ mt →
      frameStage env mt = .error () →
        (analyzeReefMedia env file mt cache).1 = demoOf env file ∧
        (analyzeReefMedia env file mt cache).2.2 = []) ∧
    (∀ fpe, getGeminiClient env.geminiApiKey = true →
      ¬ (file.size : ℚ) / (1024 * 1024) > maxSizeQ mt →
      frameStage env mt = .ok fpe →
      getRoboflowApiKey env.roboflowApiKey = none →
      env.geminiResponse = .err →
        (analyzeReefMedia env file mt cache).1 = demoOf env file ∧
        (analyzeReefMedia env file mt cache).2.2 =
          fpe.2.2 ++ [ReqEvent.geminiAnalyze]) ∧
    (∀ fpe text, getGeminiClient env.geminiApiKey = true →
      ¬ (file.size : ℚ) / (1024 * 1024) > maxSizeQ mt →
      frameStage env mt = .ok fpe →
      getRoboflowApiKey env.roboflowApiKey = none →
      env.geminiResponse = .ok text →
      extractJson text = none →
        (analyzeReefMedia env file mt cache).1 = demoOf env file ∧
        (analyzeReefMedia env file mt cache).2.2 =
          fpe.2.2 ++ [ReqEvent.geminiAnalyze]) ∧
    (∀ fpe text jtext, getGeminiClient env.geminiApiKey = true →
      ¬ (file.size : ℚ) / (1024 * 1024) > maxSizeQ mt →
      frameStage env mt = .ok fpe →
      getRoboflowApiKey env.roboflowApiKey = none →
      env.geminiResponse = .ok text →
      extractJson text = some jtext →
      env.jsonParse jtext = none →
        (analyzeReefMedia env file mt cache).1 = demoOf env file ∧
        (analyzeReefMedia env file mt cache).2.2 =
          fpe.2.2 ++ [ReqEvent.geminiAnalyze]) ∧
    ((analyzeReefMedia env file mt cache).2.2.count ReqEvent.geminiAnalyze ≤ 1 ∧
     (analyzeReefMedia env file mt cache).2.2.count ReqEvent.roboflowDetect ≤ 1) := by
  rw [analyzeReefMedia_miss env file mt cache hfresh]
  dsimp only
  refine ⟨?_, ?_, ?_, ?_, ?_, ?_, ?_⟩
  · intro hk
    rw [freshCore_no_key env file mt _ hk]
    exact ⟨rfl, rfl⟩
  · intro hk hs
    rw [freshCore_oversized env file mt _ hk hs]
    exact ⟨rfl, rfl⟩
  · intro hk hs hf
    rw [freshCore_read_err env file mt _ hk hs hf]
    exact ⟨rfl, rfl⟩
  · intro fpe hk hs hf hr hg
    rw [freshCore_gemini_err env file mt _ fpe hk hs hf hr hg]
    exact ⟨rfl, rfl⟩
  · intro fpe text hk hs hf hr hg hj
    rw [freshCore_no_json env file mt _ fpe text hk hs hf hr hg hj]
    exact ⟨rfl, rfl⟩
  · intro fpe text jtext hk hs hf hr hg hj hp
    rw [freshCore_bad_json env file mt _ fpe text jtext hk hs hf hr hg hj hp]
    exact ⟨rfl, rfl⟩
  · exact freshCore_no_retry env file mt _

theorem analyzeReefMedia_failure_fallback_witness :
    (analyzeReefMedia envNoKey fileA .image ([] : Cache)).1 = demoOf envNoKey fileA ∧
    (analyzeReefMedia envNoKey fileA .image ([] : Cache)).2.2 = [] :=
  (analyzeReefMedia_failure_fallback envNoKey fileA .image [] rfl).1 rfl

/-- C5: with a valid Gemini key configured and a file strictly larger than
the media-type limit (20 MB image / 50 MB video), `analyzeReefMedia`
returns the demo result for that file and issues no request at all. -/
theorem analyzeReefMedia_oversized_to_demo (env : Env) (file : JFile) (mt : MediaType)
    (cache : Cache)
    (hfresh : lookupCache cache (generateFileHash file) = none)
    (hkey : getGeminiClient env.geminiApiKey = true)
    (hsize : (file.size : ℚ) / (1024 * 1024) > maxSizeQ mt) :
    (analyzeReefMedia env file mt cache).1 = demoOf env file ∧
    (analyzeReefMedia env file mt cache).2.2 = [] := by
  rw [analyzeReefMedia_miss env file mt cache hfresh]
  dsimp only
  rw [freshCore_oversized env file mt _ hkey hsize]
  exact ⟨rfl, rfl⟩

/-- Environment with a (syntactically valid) Gemini key. -/
def envKey : Env :=
  { geminiApiKey := some "k", roboflowApiKey := none, sortImpl := sortId,
    jsonParse := fun _ => none, timestamp := "2026-01-01T00:00:00.000Z",
    frameExtract := .err, fileB64 := .err, countOf := fun _ => .err,
    geminiResponse := .err, roboflowResponse := .err }

/-- A 21 MB image file (strictly over the 20 MB image limit). -/
def fileBig : JFile := ⟨"big.jpg", 22020096, "image/jpeg", []⟩

theorem analyzeReefMedia_oversized_to_demo_witness :
    (analyzeReefMedia envKey fileBig .image ([] : Cache)).1 = demoOf envKey fileBig ∧
    (analyzeReefMedia envKey fileBig .image ([] : Cache)).2.2 = [] :=
  analyzeReefMedia_oversized_to_demo envKey fileBig .image [] rfl
    (by decide) (by norm_num [fileBig, maxSizeQ])

/-! ## Frame selection analysis -/

/-- Running maximum of the counts in a `(frame, count)` list. -/
def pairMax (l : List (String × Int)) (a : Int) : Int :=
  l.foldl (fun m p => max m p.2) a

theorem pairMax_nil (a : Int) : pairMax [] a = a := rfl

theorem pairMax_cons (p : String × Int) (rest : List (String × Int)) (a : Int) :
    pairMax (p :: rest) a = pairMax rest (max a p.2) := rfl

theorem pairMax_init_le (l : List (String × Int)) (a : Int) : a ≤ pairMax l a := by
  induction l generalizing a with
  | nil => exact le_refl a
  | cons p rest ih => exact le_trans (le_max_left a p.2) (ih (max a p.2))

theorem pairMax_mem_le {l : List (String × Int)} (p : String × Int) (hp : p ∈ l)
    (a : Int) : p.2 ≤ pairMax l a := by
  induction l generalizing a with
  | nil => cases hp
  | cons q rest ih =>
    rcases List.mem_cons.mp hp with h | h
    · rw [pairMax_cons]
      exact le_trans (by rw [h]; exact le_max_right a q.2) (pairMax_init_le rest _)
    · exact ih h _

theorem bestLoop_snd (l : List (String × Int)) (bf : String) (mf : Int) :
    (bestLoop l bf mf).2 = pairMax l mf := by
  induction l generalizing bf mf with
  | nil => rfl
  | cons p rest ih =>
    by_cases h : p.2 > mf
    · simp only [bestLoop, if_pos h, pairMax_cons]
      rw [ih, max_eq_right (le_of_lt h)]
    · simp only [bestLoop, if_neg h, pairMax_cons]
      rw [ih, max_eq_left (not_lt.mp h)]

theorem bestLoop_fst_all_le (l : List (String × Int)) (bf : String) (mf : Int)
    (h : ∀ p ∈ l, p.2 ≤ mf) : (bestLoop l bf mf).1 = bf := by
  induction l generalizing bf mf with
  | nil => rfl
  | cons p rest ih =>
    have hp := h p (List.mem_cons_self p rest)
    simp only [bestLoop, if_neg (not_lt.mpr hp)]
    exact ih bf mf (fun q hq => h q (List.mem_cons_of_mem p hq))

/-- When some count strictly exceeds the initial maximum, the loop returns
the first frame whose count equals the overall maximum. -/
theorem bestLoop_fst_find (l : List (String × Int)) (bf : String) (mf : Int)
    (h : mf < pairMax l mf) :
    some (bestLoop l bf mf).1 =
      (l.find? (fun p => p.2 == pairMax l mf)).map Prod.fst := by
  induction l generalizing bf mf with
  | nil => exact absurd h (lt_irrefl mf)
  | cons p rest ih =>
    by_cases hpm : p.2 > mf
    · have hmax : max mf p.2 = p.2 := max_eq_right (le_of_lt hpm)
      have hM : pairMax (p :: rest) mf = pairMax rest p.2 := by
        rw [pairMax_cons, hmax]
      by_cases htop : pairMax rest p.2 = p.2
      · have hfind : (p :: rest).find? (fun q => q.2 == pairMax (p :: rest) mf) = some p := by
          apply List.find?_cons_of_pos
          rw [hM, htop]
          exact beq_self_eq_true p.2
        rw [hfind]
        simp only [bestLoop, if_pos hpm, Option.map_some']
        congr 1
        apply bestLoop_fst_all_le
        intro q hq
        calc q.2 ≤ pairMax rest p.2 := pairMax_mem_le q hq p.2
        _ = p.2 := htop
      · have hlt : p.2 < pairMax rest p.2 :=
          lt_of_le_of_ne (pairMax_init_le rest p.2) (Ne.symm htop)
        have hfind : (p :: rest).find? (fun q => q.2 == pairMax (p :: rest) mf) =
            rest.find? (fun q => q.2 == pairMax (p :: rest) mf) := by
          apply List.find?_cons_of_neg
          rw [hM]
          simp only [beq_iff_eq]
          exact fun he => htop he.symm
        rw [hfind]
        simp only [bestLoop, if_pos hpm]
        rw [hM]
        exact ih p.1 p.2 hlt
    · have hmax : max mf p.2 = mf := max_eq_left (not_lt.mp hpm)
      have hM : pairMax (p :: rest) mf = pairMax rest mf := by
        rw [pairMax_cons, hmax]
      rw [hM] at h
      have hfind : (p :: rest).find? (fun q => q.2 == pairMax (p :: rest) mf) =
          rest.find? (fun q => q.2 == pairMax (p :: rest) mf) := by
        apply List.find?_cons_of_neg
        rw [hM]
        have hlt : p.2 < pairMax rest mf := lt_of_le_of_lt (not_lt.mp hpm) h
        simp only [beq_iff_eq]
        exact ne_of_lt hlt
      rw [hfind]
      simp only [bestLoop, if_neg hpm]
      rw [hM]
      exact ih bf mf h

/-- C3 counterexample: when the AI answers "-5" for the only frame, the
per-frame count (hence the maximum over frames) is -5, but `findBestFrame`
reports fish count 0, so the returned count is not the maximum of the
per-frame counts. -/
theorem findBestFrame_max_counterexample :
    (findBestFrame (fun _ => NetResult.ok "-5") ["a"]).2 = 0 ∧
    countFishInFrame (NetResult.ok "-5") = -5 ∧
    (findBestFrame (fun _ => NetResult.ok "-5") ["a"]).2 ≠
      countFishInFrame (NetResult.ok "-5") := by
  refine ⟨?_, ?_, ?_⟩ <;> decide

/-- C3 (amended): for every non-empty frame list, `findBestFrame` returns as
`fishCount` the maximum of the per-frame counts clamped below at 0 (the
accumulator starts at 0, so a maximum that is negative is reported as 0);
when some count is positive the returned frame is the first one attaining
the maximum, otherwise it is the first frame. -/
theorem findBestFrame_spec (respOf : String → NetResult String) (frames : List String)
    (hne : frames ≠ []) :
    (findBestFrame respOf frames).2 =
      (frames.map (fun f => countFishInFrame (respOf f))).foldl max 0 ∧
    (0 < (frames.map (fun f => countFishInFrame (respOf f))).foldl max 0 →
      some (findBestFrame respOf frames).1 =
        ((frames.zip (frames.map (fun f => countFishInFrame (respOf f)))).find?
          (fun p => p.2 ==
            (frames.map (fun f => countFishInFrame (respOf f))).foldl max 0)).map
          Prod.fst) ∧
    ((frames.map (fun f => countFishInFrame (respOf f))).foldl max 0 ≤ 0 →
      (findBestFrame respOf frames).1 = frames.headD "undefined") := by
  have hsnd : (frames.zip (frames.map (fun f => countFishInFrame (respOf f)))).map
      Prod.snd = frames.map (fun f => countFishInFrame (respOf f)) :=
    List.map_snd_zip _ _ (by simp)
  have hfold : (frames.map (fun f => countFishInFrame (respOf f))).foldl max 0 =
      pairMax (frames.zip (frames.map (fun f => countFishInFrame (respOf f)))) 0 := by
    conv_lhs => rw [← hsnd]
    rw [pairMax, List.foldl_map]
  refine ⟨?_, ?_, ?_⟩
  · show (bestLoop (frames.zip (frames.map (fun f => countFishInFrame (respOf f))))
      (frames.headD "undefined") 0).2 = _
    rw [bestLoop_snd, hfold]
  · intro hpos
    rw [hfold] at hpos
    show some (bestLoop (frames.zip (frames.map (fun f => countFishInFrame (respOf f))))
      (frames.headD "undefined") 0).1 = _
    rw [bestLoop_fst_find _ _ _ hpos, hfold]
  · intro hle
    rw [hfold] at hle
    show (bestLoop (frames.zip (frames.map (fun f => countFishInFrame (respOf f))))
      (frames.headD "undefined") 0).1 = frames.headD "undefined"
    apply bestLoop_fst_all_le
    intro p hp
    exact le_trans (pairMax_mem_le p hp 0) hle

theorem findBestFrame_spec_witness :
    (["a"] : List String) ≠ [] ∧
    (findBestFrame (fun _ => NetResult.ok "2") ["a"]).2 =
      ((["a"] : List String).map
        (fun f => countFishInFrame ((fun _ => NetResult.ok "2") f))).foldl max 0 :=
  ⟨by decide, (findBestFrame_spec (fun _ => NetResult.ok "2") ["a"] (by decide)).1⟩

/-! ## Video frame sampling -/

theorem extractGo_spec (capture : ℚ → String) (iv : ℚ) :
    ∀ (rem k : Nat),
      (extractGo true capture iv rem k).2 =
        (List.range rem).map (fun j : Nat => iv * ((k : ℚ) + (j : ℚ) + 1)) ∧
      (extractGo true capture iv rem k).1.length = rem := by
  intro rem
  induction rem with
  | zero => intro k; exact ⟨rfl, rfl⟩
  | succ n ih =>
    intro k
    obtain ⟨h2, h1⟩ := ih (k + 1)
    constructor
    · show iv * ((k : ℚ) + 1) :: (extractGo true capture iv n (k + 1)).2 = _
      rw [h2, List.range_succ_eq_map, List.map_cons, List.map_map]
      congr 1
      · push_cast; ring
      · apply List.map_congr_left
        intro j _
        show iv * (((k + 1 : Nat) : ℚ) + (j : ℚ) + 1) =
          iv * ((k : ℚ) + ((Nat.succ j : Nat) : ℚ) + 1)
        push_cast
        ring
    · show ((if true then [capture (iv * ((k : ℚ) + 1))] else []) ++
        (extractGo true capture iv n (k + 1)).1).length = n + 1
      rw [if_pos rfl, List.length_append, h1, List.length_singleton]
      omega

/-- C4: on the success path with a 2D canvas context, `extractVideoFrames`
seeks exactly to the times `(k+1) * d / (n+1)` for `k = 0..n-1` — evenly
spaced interior positions that skip time 0 and time `d` — and resolves with
exactly `n` captured frames. -/
theorem extractVideoFrames_spec (capture : ℚ → String) (d : ℚ) (n : Nat) :
    (extractVideoFrames true capture d n).2 =
      (List.range n).map (fun k : Nat => ((k : ℚ) + 1) * d / ((n : ℚ) + 1)) ∧
    (extractVideoFrames true capture d n).1.length = n := by
  obtain ⟨h2, h1⟩ := extractGo_spec capture (d / ((n : ℚ) + 1)) n 0
  refine ⟨?_, h1⟩
  rw [extractVideoFrames, h2]
  apply List.map_congr_left
  intro j _
  show d / ((n : ℚ) + 1) * ((0 : ℚ) + (j : ℚ) + 1) = ((j : ℚ) + 1) * d / ((n : ℚ) + 1)
  ring

/-! ## Result hand-off between the upload and results views -/

/-- A concrete analysis result for evaluation. -/
def resFix : AnalysisResult :=
  { healthScore := JNum.num 65, biodiversityScore := JNum.num 60, trend := "stable",
    summary := "ok", species := [], timestamp := "2026-01-01T00:00:00.000Z",
    totalFishCount := JVal.jnum 0, confidence := JVal.jnum 75, analyzedFrame := none }

/-- C6 counterexample: the upload components pass the result through
`sessionStorage`, not local storage: at a concrete result, no write of
either success continuation targets local storage. -/
theorem uploadStores_not_local_counterexample :
    (∀ w ∈ (mediaUploadOnSuccess (fun _ => "r") resFix "reef.jpg").1,
      w.kind ≠ StorageKind.browserLocal) ∧
    (∀ w ∈ (videoUploadOnSuccess (fun _ => "r") resFix "reef.mp4").1,
      w.kind ≠ StorageKind.browserLocal) := by
  constructor <;> decide

/-- C6 (amended): after `analyzeReefMedia` (resp. `analyzeReefVideo`)
succeeds, the upload component stores the serialized `AnalysisResult` and
the file name under the `sessionStorage` keys `analysisResult` and
`analysisFilename`, then navigates to the results view. -/
theorem uploadStores_session_result (env : Env) (stringify : AnalysisResult → String)
    (file : JFile) (mt : MediaType) (cache : Cache) :
    mediaUploadHandleAnalyze env stringify file mt cache =
      ([⟨.session, "analysisResult", stringify (analyzeReefMedia env file mt cache).1⟩,
        ⟨.session, "analysisFilename", file.name⟩], "/results") ∧
    videoUploadHandleAnalyze env stringify file cache =
      ([⟨.session, "analysisResult", stringify (analyzeReefVideo env file cache).1⟩,
        ⟨.session, "analysisFilename", file.name⟩], "/results") :=
  ⟨rfl, rfl⟩
